import Mathlib

/-!
Shallow embedding of the `ak-backend` user controller
(`src/controllers/user.controller.js`) and the `asyncHandler` utility
(`src/utils/asyncHandler.js`), together with theorems settling the spec's
claims about the token lifecycle, the request handlers' error behaviour and
the user views they return.

External collaborators whose code is not part of the repository snapshot
(the mongoose user model with its bcrypt hooks and jwt token methods, the
`ApiError`/`ApiResponse` envelope classes, the cloudinary uploader, the
auth middleware) are modelled from the spec where a claim needs them; each
such definition carries a doc comment saying so.
-/

namespace AkBackend

/-- Error envelope carried by a thrown `ApiError(statusCode, message)`.
Modelled from the spec: the `ApiError` class itself lives in
`src/utils/ApiError.js`, absent from the snapshot; the spec's §7 taxonomy
maps each thrown error to its numeric status code and message. -/
structure ApiError where
  statusCode : Nat
  message : String
deriving DecidableEq, Repr

/-- Success envelope `new ApiResponse(statusCode, data, message)`.
Modelled from the spec (§6): `{statusCode, data, message, success}` with
`success : true` on the success path. The class file is absent from the
snapshot. -/
structure ApiResponse (α : Type) where
  statusCode : Nat
  data : α
  message : String
  success : Bool
deriving DecidableEq, Repr

/-- A signed token minted by the token issuer. Modelled from the spec
(§4.1): the payload carries the user id; `nonce` stands for the freshness
of each mint (`iat`/expiry material), so two distinct mints yield distinct
tokens. The jwt signing methods live in the user model, absent from the
snapshot. -/
structure Token where
  uid : Nat
  nonce : Nat
deriving DecidableEq, Repr

/-- The `refreshToken` field of a stored user document, which MongoDB can
hold as a value, as `null`, or drop entirely (`$unset`). The three cases
are observable: `logoutUser` uses `$unset: { refreshToken: 1 }`, removing
the field rather than nulling it. -/
inductive RTField where
  | unset
  | null
  | val (t : Token)
deriving DecidableEq, Repr

/-- A user document in the credential store. `password` holds the bcrypt
hash (the model's pre-save hook hashes the plaintext — spec §4.2). -/
structure StoredUser where
  id : Nat
  username : String
  email : String
  fullname : String
  password : String
  avatar : String
  coverImage : String
  refreshToken : RTField
deriving DecidableEq, Repr

/-- A subscription edge `{subscriber, channel}` (spec §3). -/
structure Subscription where
  subscriber : Nat
  channel : Nat
deriving DecidableEq, Repr

/-- The persistent state the handlers read and write: the user collection,
the subscription collection, the mint counter feeding token freshness, and
the next document id the store will assign. -/
structure St where
  users : List StoredUser
  subs : List Subscription
  counter : Nat
  nextId : Nat
deriving DecidableEq, Repr

/-- `User.findById(id)`: first document whose `_id` matches. -/
def findById (users : List StoredUser) (uid : Nat) : Option StoredUser :=
  users.find? (fun u => u.id == uid)

/-- `User.findByIdAndUpdate(id, upd)` / fetching a document and saving a
field change: rewrite the matching document in place. -/
def updateById (users : List StoredUser) (uid : Nat)
    (f : StoredUser → StoredUser) : List StoredUser :=
  users.map (fun u => if u.id == uid then f u else u)

/-- Modelled from the spec: the one-way password hash (bcrypt, applied by
the user model's pre-save hook; the model file is absent from the
snapshot). `isPasswordCorrect(p)` is comparison of `hashPw p` with the
stored hash. -/
def hashPw (p : String) : String := "bcrypt$" ++ p

/-- Mongoose `$or` query term `{field}`: an `undefined` value is dropped
from the query (matches nothing); a present value matches by equality. -/
def matchOpt : Option String → String → Bool
  | none, _ => false
  | some s, v => s == v

/-- JavaScript truthiness of a possibly-undefined string: `!x` holds for
`undefined` and for the empty string. -/
def falsy : Option String → Bool
  | none => true
  | some s => s == ""

/-- `generateAccessAndRefreshToken(userId)` (user.controller.js:8-22):
fetch the user, mint an access and a refresh token, store the refresh
token on the user document and save; any failure inside (user id not
found) is caught and becomes a 500. Returns the resulting state alongside
the result. -/
def generateAccessAndRefreshToken (st : St) (userId : Nat) :
    St × Except ApiError (Token × Token) :=
  match findById st.users userId with
  | none =>
      (st, .error ⟨500, "Something went wrong, while creating access and refresh token"⟩)
  | some _ =>
      let accessToken : Token := ⟨userId, st.counter⟩
      let refreshToken : Token := ⟨userId, st.counter + 1⟩
      ({ st with
          users := updateById st.users userId
            (fun u => { u with refreshToken := .val refreshToken })
          counter := st.counter + 2 },
        .ok (accessToken, refreshToken))

/-- Body returned by a successful refresh: the freshly minted pair. -/
structure RefreshData where
  accessToken : Token
  refreshToken : Token
deriving DecidableEq, Repr

/-- The try-block of `refreshAccessToken` (user.controller.js:168-198):
verify the incoming token (its payload carries the user id), look the user
up — throwing `ApiError(3401, "invalid refersh token")` when no document
matches — compare the incoming token to the stored one, and on success
mint and store a fresh pair. -/
def refreshTry (st : St) (tok : Token) :
    St × Except ApiError (Nat × ApiResponse RefreshData) :=
  match findById st.users tok.uid with
  | none => (st, .error ⟨3401, "invalid refersh token"⟩)
  | some user =>
      if user.refreshToken ≠ RTField.val tok then
        (st, .error ⟨401, "Refresh Token is expired or used"⟩)
      else
        match generateAccessAndRefreshToken st user.id with
        | (st', .error e) => (st', .error e)
        | (st', .ok (a, r)) =>
            (st', .ok (200, ⟨200, ⟨a, r⟩, "AccessToken refreshed", true⟩))

/-- The catch-block of `refreshAccessToken` (user.controller.js:199-201):
every error thrown inside the try is re-thrown as
`ApiError(401, error?.message || "Invalaid refresh token")`. -/
def wrapCatch (e : ApiError) : ApiError :=
  ⟨401, if e.message = "" then "Invalaid refresh token" else e.message⟩

/-- `refreshAccessToken` (user.controller.js:162-202): 401 when no token
is presented; otherwise the try-block runs under the catch wrapper. -/
def refreshAccessToken (st : St) (incoming : Option Token) :
    St × Except ApiError (Nat × ApiResponse RefreshData) :=
  match incoming with
  | none => (st, .error ⟨401, "Unauthorized request"⟩)
  | some tok =>
      match refreshTry st tok with
      | (st', .ok r) => (st', .ok r)
      | (st', .error e) => (st', .error (wrapCatch e))

/-- `logoutUser` (user.controller.js:135-160): `$unset` the stored refresh
token and answer 200; no error path. -/
def logoutUser (st : St) (userId : Nat) :
    St × Except ApiError (Nat × ApiResponse Unit) :=
  ({ st with
      users := updateById st.users userId (fun u => { u with refreshToken := .unset }) },
    .ok (200, ⟨200, (), "User Logged Out successfully", true⟩))

/-- A user document as a query projection returns it: stripped fields are
absent. `password` is `none` when projected away; `refreshToken` keeps the
tri-state field, `.unset` standing for a projected-away field. -/
structure UserView where
  id : Nat
  username : String
  email : String
  fullname : String
  avatar : String
  coverImage : String
  password : Option String
  refreshToken : RTField
deriving DecidableEq, Repr

/-- `.select("-password -refreshToken")`: the profile view with both the
password hash and the refresh token projected away. -/
def selectPwRt (u : StoredUser) : UserView :=
  ⟨u.id, u.username, u.email, u.fullname, u.avatar, u.coverImage, none, .unset⟩

/-- `.select("-password")`: only the password hash projected away; the
refresh token field stays as stored. -/
def selectPw (u : StoredUser) : UserView :=
  ⟨u.id, u.username, u.email, u.fullname, u.avatar, u.coverImage, none, u.refreshToken⟩

/-- JavaScript `String.prototype.trim`: strip leading and trailing
whitespace. -/
def jsTrim (s : String) : String :=
  String.mk (((s.data.dropWhile Char.isWhitespace).reverse.dropWhile Char.isWhitespace).reverse)

/-- JavaScript `String.prototype.toLowerCase`. -/
def jsToLower (s : String) : String :=
  String.mk (s.data.map Char.toLower)

/-- The check `field?.trim() === ""` applied to one request-body field:
optional chaining makes it `false` for an absent field, `true` exactly for
a present field that trims to the empty string. -/
def trimEmptyCheck : Option String → Bool
  | none => false
  | some s => jsTrim s == ""

/-- A file stored by the media uploader. Modelled from the spec (§2): the
uploader is an external collaborator returning an object carrying the
stored file's `url`. -/
structure CloudFile where
  url : String
deriving DecidableEq, Repr

/-- Modelled from the spec: `uploadOnCloudinary` (utility absent from the
snapshot) returns `null` when given no local path and otherwise stores the
file and returns its remote url. -/
def uploadOnCloudinary : Option String → Option CloudFile
  | none => none
  | some p => some ⟨"https://cdn.example/" ++ p⟩

/-- The register request: four body fields and the two uploaded file paths
(`req.files?.avatar[0]?.path`, `req.files.coverImage[0].path`), each
possibly absent. -/
structure RegisterReq where
  fullname : Option String
  email : Option String
  username : Option String
  password : Option String
  avatarPath : Option String
  coverImagePath : Option String
deriving DecidableEq, Repr

/-- `registerUser` (user.controller.js:28-88): field validation via
`[..].some(f => f?.trim() === "")`, duplicate check on email/username,
avatar-path and upload checks, then `User.create` (storing the hashed
password and the lowercased username) and the 201 response carrying the
`-password -refreshToken` view with envelope code 200. The final branch
models the schema's required fields (user model absent from the snapshot;
spec §7: uncaught store errors surface as 500). -/
def registerUser (st : St) (req : RegisterReq) :
    St × Except ApiError (Nat × ApiResponse UserView) :=
  if [req.fullname, req.email, req.username, req.password].any trimEmptyCheck then
    (st, .error ⟨400, "All field are required"⟩)
  else
    match st.users.find? (fun u => matchOpt req.email u.email || matchOpt req.username u.username) with
    | some _ => (st, .error ⟨409, "user is already exist"⟩)
    | none =>
        match req.avatarPath with
        | none => (st, .error ⟨400, "Avatar files is reqiured"⟩)
        | some avatarLocalPath =>
            match uploadOnCloudinary (some avatarLocalPath) with
            | none => (st, .error ⟨400, "Avatar files is reqiured"⟩)
            | some avatar =>
                let coverImage := uploadOnCloudinary req.coverImagePath
                match req.fullname, req.email, req.username, req.password with
                | some fullname, some email, some username, some password =>
                    let newUser : StoredUser :=
                      ⟨st.nextId, jsToLower username, email, fullname, hashPw password,
                        avatar.url, ((coverImage.map CloudFile.url).getD ""), .unset⟩
                    let st' := { st with users := st.users ++ [newUser], nextId := st.nextId + 1 }
                    match findById st'.users newUser.id with
                    | none => (st', .error ⟨500, "Something went wrong while registering the user"⟩)
                    | some created =>
                        (st', .ok (201, ⟨200, selectPwRt created, "User register successfully", true⟩))
                | _, _, _, _ => (st, .error ⟨500, "Internal Server Error"⟩)

/-- Body returned by a successful login. -/
structure LoginData where
  user : Option UserView
  accessToken : Token
  refreshToken : Token
deriving DecidableEq, Repr

/-- The login request body `{username?, email?, password?}`. -/
structure LoginReq where
  username : Option String
  email : Option String
  password : Option String
deriving DecidableEq, Repr

/-- `loginUser` (user.controller.js:90-133): 400 when `!username && !email`
(both absent or empty), `$or` lookup, password comparison against the
stored hash, token pair issuance, and the 200 response carrying the
`-password -refreshToken` view with both tokens. A missing password
reaching the bcrypt compare is modelled from the spec as an uncaught 500
(§7; the model's compare method is absent from the snapshot). -/
def loginUser (st : St) (req : LoginReq) :
    St × Except ApiError (Nat × ApiResponse LoginData) :=
  if falsy req.username && falsy req.email then
    (st, .error ⟨400, "username or email is required"⟩)
  else
    match st.users.find? (fun u => matchOpt req.username u.username || matchOpt req.email u.email) with
    | none => (st, .error ⟨404, "User does not exist"⟩)
    | some user =>
        match req.password with
        | none => (st, .error ⟨500, "Internal Server Error"⟩)
        | some password =>
            if hashPw password ≠ user.password then
              (st, .error ⟨401, "Invalid user credentials."⟩)
            else
              match generateAccessAndRefreshToken st user.id with
              | (st', .error e) => (st', .error e)
              | (st', .ok (a, r)) =>
                  let loggedInUser := (findById st'.users user.id).map selectPwRt
                  (st', .ok (200, ⟨200, ⟨loggedInUser, a, r⟩, "User logged In Successfully", true⟩))

/-- `changeCurrentPassword` (user.controller.js:204-222): fetch the
authenticated user, compare the old password with the stored hash (400 on
mismatch, before any write), else store the new hash (pre-save hook,
spec §4.2) and answer 200. A missing auth user would be an uncaught
null-dereference, modelled from the spec as a 500 (§7). -/
def changeCurrentPassword (st : St) (userId : Nat) (oldPassword newPassword : String) :
    St × Except ApiError (Nat × ApiResponse Unit) :=
  match findById st.users userId with
  | none => (st, .error ⟨500, "Internal Server Error"⟩)
  | some user =>
      if hashPw oldPassword ≠ user.password then
        (st, .error ⟨400, "Invalid Old Password"⟩)
      else
        ({ st with
            users := updateById st.users userId
              (fun u => { u with password := hashPw newPassword }) },
          .ok (200, ⟨200, (), "Password Changed Successfully", true⟩))

/-- Modelled from the spec: the auth middleware (absent from the snapshot)
injects `req.user` as the stored document with password and refresh token
stripped (§3: neither field is ever returned in profile fetches). -/
def authUser (st : St) (userId : Nat) : Option UserView :=
  (findById st.users userId).map selectPwRt

/-- `getCurrentUser` (user.controller.js:224-228): answer 200 with
`req.user` as injected by the auth middleware. -/
def getCurrentUser (st : St) (userId : Nat) :
    Nat × ApiResponse (Option UserView) :=
  (200, ⟨200, authUser st userId, "current user fetched successfully", true⟩)

/-- `updateUserAccount` (user.controller.js:230-245): 400 when fullname or
email is falsy, else `$set` both fields and answer 200 with the
`-password` view of the updated document. -/
def updateUserAccount (st : St) (userId : Nat) (fullname email : Option String) :
    St × Except ApiError (Nat × ApiResponse (Option UserView)) :=
  if falsy fullname || falsy email then
    (st, .error ⟨400, "All Fields are required"⟩)
  else
    let st' := { st with
      users := updateById st.users userId
        (fun u => { u with fullname := fullname.getD u.fullname,
                           email := email.getD u.email }) }
    (st', .ok (200, ⟨200, (findById st'.users userId).map selectPw,
      "Account details updated successfully", true⟩))

/-- `updateUserAvatar` (user.controller.js:247-276): 400 when no file path,
upload, 500 when the upload yields no url, else `$set` the avatar url and
answer 200 with the `-password` view. -/
def updateUserAvatar (st : St) (userId : Nat) (filePath : Option String) :
    St × Except ApiError (Nat × ApiResponse (Option UserView)) :=
  match filePath with
  | none => (st, .error ⟨400, "Avatar is required"⟩)
  | some p =>
      match uploadOnCloudinary (some p) with
      | none => (st, .error ⟨500, "Error while uploading avatar"⟩)
      | some avatar =>
          if avatar.url = "" then
            (st, .error ⟨500, "Error while uploading avatar"⟩)
          else
            let st' := { st with
              users := updateById st.users userId (fun u => { u with avatar := avatar.url }) }
            (st', .ok (200, ⟨200, (findById st'.users userId).map selectPw,
              "Avatar is updated is successfully", true⟩))

/-- `updateUserCoverImage` (user.controller.js:278-307): as for the avatar,
with the cover-image field. -/
def updateUserCoverImage (st : St) (userId : Nat) (filePath : Option String) :
    St × Except ApiError (Nat × ApiResponse (Option UserView)) :=
  match filePath with
  | none => (st, .error ⟨400, "cover image is required"⟩)
  | some p =>
      match uploadOnCloudinary (some p) with
      | none => (st, .error ⟨500, "Error while uploading avatar"⟩)
      | some coverImage =>
          if coverImage.url = "" then
            (st, .error ⟨500, "Error while uploading avatar"⟩)
          else
            let st' := { st with
              users := updateById st.users userId
                (fun u => { u with coverImage := coverImage.url }) }
            (st', .ok (200, ⟨200, (findById st'.users userId).map selectPw,
              "coverImage is updated successfully", true⟩))

/-- One row of the channel-profile aggregation output after the lookup,
addFields and project stages (user.controller.js:316-367). -/
structure ChannelProfile where
  fullname : String
  username : String
  email : String
  avatar : String
  coverImage : String
  subscriberCount : Nat
  channelsSubscribedToCount : Nat
  isSubscribed : Bool
deriving DecidableEq, Repr

/-- `getUserChannalProfile` (user.controller.js:309-376): 400 when the
username param is absent or trims empty; aggregate over users matching the
lowercased username, joining subscription edges for the two counts and the
viewer's `isSubscribed` flag; `ApiError(400, "Channel doesnot exists")`
when the pipeline output is empty; else 200 with the first row. -/
def getUserChannalProfile (st : St) (username : Option String) (viewerId : Option Nat) :
    Except ApiError (Nat × ApiResponse ChannelProfile) :=
  match username with
  | none => .error ⟨400, "Username is missing"⟩
  | some uname =>
      if jsTrim uname = "" then .error ⟨400, "Username is missing"⟩
      else
        let matched := st.users.filter (fun u => u.username == jsToLower uname)
        let profiles := matched.map (fun u =>
          let subscribers := st.subs.filter (fun s => s.channel == u.id)
          let subscribedTo := st.subs.filter (fun s => s.subscriber == u.id)
          ({ fullname := u.fullname
             username := u.username
             email := u.email
             avatar := u.avatar
             coverImage := u.coverImage
             subscriberCount := subscribers.length
             channelsSubscribedToCount := subscribedTo.length
             isSubscribed :=
               match viewerId with
               | some v => subscribers.any (fun s => s.subscriber == v)
               | none => false } : ChannelProfile))
        match profiles with
        | [] => .error ⟨400, "Channel doesnot exists"⟩
        | p :: _ => .ok (200, ⟨200, p, "user channel fetched successfully", true⟩)

/-- One statement of a JavaScript block body: an expression statement
(value evaluated, then discarded) or a `return`. -/
inductive JsStmt (α : Type) where
  | exprStmt (v : α)
  | returnStmt (v : α)

/-- Running a JavaScript function whose body is a block: the value of the
first `return` statement, `undefined` (`none`) when the block ends without
one. -/
def runBody {α : Type} : List (JsStmt α) → Option α
  | [] => none
  | JsStmt.exprStmt _ :: rest => runBody rest
  | JsStmt.returnStmt v :: _ => some v

/-- The inner arrow `(req, res, next) => { Promise.resolve(reqHandler(req,
res, next)).catch((err) => next(err)) }` of `asyncHandler`
(asyncHandler.js:2-4): run the handler and route a rejection to `next`. -/
def innerArrow {Req Res E : Type} (reqHandler : Req → Res → (E → Unit) → Except E Unit) :
    Req → Res → (E → Unit) → Unit :=
  fun req res next =>
    match reqHandler req res next with
    | .ok _ => ()
    | .error e => next e

/-- `asyncHandler` (asyncHandler.js:1-5): the outer arrow's body is a
braced block whose single statement is the inner arrow expression, with no
`return`; the call's value is whatever `runBody` yields for that block. -/
def asyncHandler {Req Res E : Type} (reqHandler : Req → Res → (E → Unit) → Except E Unit) :
    Option (Req → Res → (E → Unit) → Unit) :=
  runBody [JsStmt.exprStmt (innerArrow reqHandler)]

/-- `findById` over `updateById` at the same id: the found document is the
updated one, provided the update preserves the id. -/
theorem findById_updateById (users : List StoredUser) (uid : Nat)
    (f : StoredUser → StoredUser) (hf : ∀ x, (f x).id = x.id) :
    findById (updateById users uid f) uid = (findById users uid).map f := by
  induction users with
  | nil => rfl
  | cons u rest ih =>
      by_cases h : u.id = uid
      · simp [findById, updateById, List.find?, h, hf u]
      · have hb : (u.id == uid) = false := by
          simp [h]
        simp only [findById, updateById, List.map_cons, List.find?, hb, if_neg, if_false]
        simpa [findById, updateById, hb] using ih

/-- Helper: an error result of `generateAccessAndRefreshToken` is always
the catch-all 500. -/
theorem generate_error_is_500 (st : St) (uid : Nat) (st₁ : St) (e : ApiError)
    (h : generateAccessAndRefreshToken st uid = (st₁, .error e)) :
    e = ⟨500, "Something went wrong, while creating access and refresh token"⟩ := by
  simp only [generateAccessAndRefreshToken] at h
  split at h <;> simp_all

/-- C1: a presented refresh token is accepted only when it equals the
stored one; a successful refresh overwrites the stored value with a newly
minted token (distinct from every earlier mint), so replaying the same
token fails with a 401 UnauthorizedError. The freshness hypothesis
`t.nonce < st.counter` is the mint invariant: every stored token came from
an earlier mint than the counter's current position. -/
theorem refresh_rotates_and_rejects_reuse (st : St) (u : StoredUser) (t : Token)
    (hu : findById st.users u.id = some u)
    (ht : u.refreshToken = .val t)
    (hid : t.uid = u.id)
    (hfresh : t.nonce < st.counter) :
    ∃ st₁ env,
      refreshAccessToken st (some t) = (st₁, .ok (200, env)) ∧
      env.data.refreshToken = ⟨u.id, st.counter + 1⟩ ∧
      findById st₁.users u.id =
        some { u with refreshToken := .val ⟨u.id, st.counter + 1⟩ } ∧
      env.data.refreshToken ≠ t ∧
      (refreshAccessToken st₁ (some t)).2 =
        .error ⟨401, "Refresh Token is expired or used"⟩ := by
  have htne : (⟨u.id, st.counter + 1⟩ : Token) ≠ t := by
    intro hEq
    have hn : st.counter + 1 = t.nonce := congrArg Token.nonce hEq
    omega
  have hfind := findById_updateById st.users u.id
    (fun x => { x with refreshToken := RTField.val ⟨u.id, st.counter + 1⟩ }) (fun x => rfl)
  rw [hu] at hfind
  simp only [Option.map] at hfind
  have hstep : refreshAccessToken st (some t) =
      ({ st with
          users := updateById st.users u.id
            (fun x => { x with refreshToken := .val ⟨u.id, st.counter + 1⟩ })
          counter := st.counter + 2 },
        .ok (200, ⟨200, ⟨⟨u.id, st.counter⟩, ⟨u.id, st.counter + 1⟩⟩,
          "AccessToken refreshed", true⟩)) := by
    simp only [refreshAccessToken, refreshTry, generateAccessAndRefreshToken, hid, hu, ht]
    simp
  refine ⟨_, _, hstep, rfl, hfind, htne, ?_⟩
  simp only [refreshAccessToken, refreshTry, hid]
  rw [hfind]
  simp [htne, wrapCatch]

/-- C1 witness: the rotation theorem applied to a one-user store whose
stored token is `⟨1, 0⟩` with the mint counter at 1. -/
theorem refresh_rotates_and_rejects_reuse_witness :
    ∃ st₁ env,
      refreshAccessToken
          ⟨[⟨1, "alice", "alice@x.com", "Alice", hashPw "p1", "av", "", .val ⟨1, 0⟩⟩], [], 1, 2⟩
          (some ⟨1, 0⟩) = (st₁, .ok (200, env)) ∧
      env.data.refreshToken = ⟨1, 2⟩ ∧
      findById st₁.users 1 =
        some ⟨1, "alice", "alice@x.com", "Alice", hashPw "p1", "av", "", .val ⟨1, 2⟩⟩ ∧
      env.data.refreshToken ≠ ⟨1, 0⟩ ∧
      (refreshAccessToken st₁ (some ⟨1, 0⟩)).2 =
        .error ⟨401, "Refresh Token is expired or used"⟩ :=
  refresh_rotates_and_rejects_reuse
    ⟨[⟨1, "alice", "alice@x.com", "Alice", hashPw "p1", "av", "", .val ⟨1, 0⟩⟩], [], 1, 2⟩
    ⟨1, "alice", "alice@x.com", "Alice", hashPw "p1", "av", "", .val ⟨1, 0⟩⟩
    ⟨1, 0⟩ rfl rfl rfl (by decide)

/-- C2 counterexample: a verified refresh token whose decoded user id
matches no record produces a 401, not the claimed 404 — the handler's
inner `ApiError(3401, ...)` is re-thrown by the surrounding catch as a
401 carrying the same message. -/
theorem refresh_unknown_user_is_401_not_404 :
    (refreshAccessToken ⟨[], [], 0, 0⟩ (some ⟨0, 0⟩)).2 =
      .error ⟨401, "invalid refersh token"⟩ ∧ (401 : Nat) ≠ 404 :=
  ⟨rfl, by decide⟩

/-- C2 amended: when the decoded user id has no matching record, refresh
fails with UnauthorizedError 401 (message "invalid refersh token") and
leaves the store unchanged. -/
theorem refresh_unknown_user_wrapped_401 (st : St) (t : Token)
    (h : findById st.users t.uid = none) :
    refreshAccessToken st (some t) = (st, .error ⟨401, "invalid refersh token"⟩) := by
  simp only [refreshAccessToken, refreshTry, h]
  simp [wrapCatch]

/-- C2 witness: the amended theorem on the empty store. -/
theorem refresh_unknown_user_wrapped_401_witness :
    refreshAccessToken ⟨[], [], 0, 0⟩ (some ⟨0, 0⟩) =
      (⟨[], [], 0, 0⟩, .error ⟨401, "invalid refersh token"⟩) :=
  refresh_unknown_user_wrapped_401 ⟨[], [], 0, 0⟩ ⟨0, 0⟩ rfl

/-- C3: every success response carrying a user view strips the password
hash (register, login, current-user fetch, account update, avatar and
cover-image update), and the profile-returning responses (register, login,
current-user fetch) also strip the refresh token. -/
theorem user_views_strip_sensitive_fields :
    (∀ (st : St) (req : RegisterReq) (st₁ : St) (n : Nat) (env : ApiResponse UserView),
        registerUser st req = (st₁, .ok (n, env)) →
        env.data.password = none ∧ env.data.refreshToken = .unset) ∧
    (∀ (st : St) (req : LoginReq) (st₁ : St) (n : Nat) (env : ApiResponse LoginData)
        (v : UserView),
        loginUser st req = (st₁, .ok (n, env)) → env.data.user = some v →
        v.password = none ∧ v.refreshToken = .unset) ∧
    (∀ (st : St) (uid : Nat) (v : UserView),
        (getCurrentUser st uid).2.data = some v →
        v.password = none ∧ v.refreshToken = .unset) ∧
    (∀ (st : St) (uid : Nat) (fn em : Option String) (st₁ : St) (n : Nat)
        (env : ApiResponse (Option UserView)) (v : UserView),
        updateUserAccount st uid fn em = (st₁, .ok (n, env)) → env.data = some v →
        v.password = none) ∧
    (∀ (st : St) (uid : Nat) (p : Option String) (st₁ : St) (n : Nat)
        (env : ApiResponse (Option UserView)) (v : UserView),
        updateUserAvatar st uid p = (st₁, .ok (n, env)) → env.data = some v →
        v.password = none) ∧
    (∀ (st : St) (uid : Nat) (p : Option String) (st₁ : St) (n : Nat)
        (env : ApiResponse (Option UserView)) (v : UserView),
        updateUserCoverImage st uid p = (st₁, .ok (n, env)) → env.data = some v →
        v.password = none) := by
  refine ⟨?_, ?_, ?_, ?_, ?_, ?_⟩
  · intro st req st₁ n env h
    simp only [registerUser] at h
    repeat' split at h
    all_goals try simp_all
    obtain ⟨-, -, henv⟩ := h
    subst henv
    simp [selectPwRt]
  · intro st req st₁ n env v h hv
    simp only [loginUser] at h
    repeat' split at h
    all_goals try simp_all
    obtain ⟨-, -, henv⟩ := h
    subst henv
    rcases Option.map_eq_some'.mp hv with ⟨u', -, rfl⟩
    simp [selectPwRt]
  · intro st uid v h
    rcases Option.map_eq_some'.mp h with ⟨u', -, rfl⟩
    simp [selectPwRt]
  · intro st uid fn em st₁ n env v h hv
    simp only [updateUserAccount] at h
    repeat' split at h
    all_goals try simp_all
    obtain ⟨-, -, henv⟩ := h
    subst henv
    rcases Option.map_eq_some'.mp hv with ⟨u', -, rfl⟩
    simp [selectPw]
  · intro st uid p st₁ n env v h hv
    simp only [updateUserAvatar] at h
    repeat' split at h
    all_goals try simp_all
    obtain ⟨-, -, henv⟩ := h
    subst henv
    rcases Option.map_eq_some'.mp hv with ⟨u', -, rfl⟩
    simp [selectPw]
  · intro st uid p st₁ n env v h hv
    simp only [updateUserCoverImage] at h
    repeat' split at h
    all_goals try simp_all
    obtain ⟨-, -, henv⟩ := h
    subst henv
    rcases Option.map_eq_some'.mp hv with ⟨u', -, rfl⟩
    simp [selectPw]

/-- C4: logout removes the stored refresh token with `$unset` (the field
becomes absent, not null), so a refresh presenting the token that was
valid before the logout fails with a 401. -/
theorem logout_unsets_token_and_blocks_refresh (st : St) (u : StoredUser) (t : Token)
    (hu : findById st.users u.id = some u)
    (ht : u.refreshToken = .val t)
    (hid : t.uid = u.id) :
    ∃ st₁,
      logoutUser st u.id = (st₁, .ok (200, ⟨200, (), "User Logged Out successfully", true⟩)) ∧
      findById st₁.users u.id = some { u with refreshToken := .unset } ∧
      RTField.unset ≠ RTField.null ∧
      (refreshAccessToken st₁ (some t)).2 =
        .error ⟨401, "Refresh Token is expired or used"⟩ := by
  have hvalid : u.refreshToken ≠ .unset := by rw [ht]; intro hEq; cases hEq
  have hfind := findById_updateById st.users u.id
    (fun x => { x with refreshToken := RTField.unset }) (fun x => rfl)
  rw [hu] at hfind
  simp only [Option.map] at hfind
  refine ⟨_, rfl, hfind, by decide, ?_⟩
  simp only [refreshAccessToken, refreshTry, logoutUser, hid]
  rw [hfind]
  simp [wrapCatch]

/-- C4 witness: logging out the one-user store, then replaying the token
that was stored before the logout. -/
theorem logout_unsets_token_and_blocks_refresh_witness :
    ∃ st₁,
      logoutUser
          ⟨[⟨1, "alice", "alice@x.com", "Alice", hashPw "p1", "av", "", .val ⟨1, 0⟩⟩], [], 1, 2⟩ 1 =
        (st₁, .ok (200, ⟨200, (), "User Logged Out successfully", true⟩)) ∧
      findById st₁.users 1 =
        some ⟨1, "alice", "alice@x.com", "Alice", hashPw "p1", "av", "", .unset⟩ ∧
      RTField.unset ≠ RTField.null ∧
      (refreshAccessToken st₁ (some ⟨1, 0⟩)).2 =
        .error ⟨401, "Refresh Token is expired or used"⟩ :=
  logout_unsets_token_and_blocks_refresh
    ⟨[⟨1, "alice", "alice@x.com", "Alice", hashPw "p1", "av", "", .val ⟨1, 0⟩⟩], [], 1, 2⟩
    ⟨1, "alice", "alice@x.com", "Alice", hashPw "p1", "av", "", .val ⟨1, 0⟩⟩
    ⟨1, 0⟩ rfl rfl rfl

/-- C5: login answers 400 "username or email is required" exactly when
both identifiers are missing or empty (JavaScript truthiness), and the
spec's scenario holds: a request with username "alice", empty email and
the correct password reaches a 200. -/
theorem login_identifier_validation :
    (∀ (st : St) (req : LoginReq),
        (loginUser st req).2 = .error ⟨400, "username or email is required"⟩ ↔
          falsy req.username = true ∧ falsy req.email = true) ∧
    (∀ (st : St) (u : StoredUser),
        st.users.find? (fun v => matchOpt (some "alice") v.username || matchOpt (some "") v.email)
          = some u →
        findById st.users u.id = some u →
        u.password = hashPw "p1" →
        ∃ st₁ env, loginUser st ⟨some "alice", some "", some "p1"⟩ = (st₁, .ok (200, env))) := by
  constructor
  · intro st req
    constructor
    · intro h
      by_cases hv : (falsy req.username && falsy req.email) = true
      · exact Bool.and_eq_true _ _ |>.mp hv
      · exfalso
        simp only [loginUser, hv] at h
        split at h
        · simp_all
        · split at h
          · simp_all
          · split at h
            · simp_all
            · split at h
              · simp_all
              · split at h
                · rename_i st' e hg
                  have := generate_error_is_500 _ _ _ _ hg
                  simp_all
                · simp_all
    · rintro ⟨h1, h2⟩
      simp [loginUser, h1, h2]
  · intro st u hfind hbyid hpw
    simp only [loginUser, falsy]
    rw [hfind]
    simp only [generateAccessAndRefreshToken, hbyid]
    simp [hpw]

/-- C6: changing the password with a wrong old password fails with a 400
ValidationError and leaves the store — in particular the stored hash —
unchanged. -/
theorem wrong_old_password_rejected_state_unchanged (st : St) (uid : Nat)
    (oldPassword newPassword : String) (u : StoredUser)
    (hu : findById st.users uid = some u)
    (hw : hashPw oldPassword ≠ u.password) :
    changeCurrentPassword st uid oldPassword newPassword =
      (st, .error ⟨400, "Invalid Old Password"⟩) ∧
    findById (changeCurrentPassword st uid oldPassword newPassword).1.users uid = some u := by
  have hstep : changeCurrentPassword st uid oldPassword newPassword =
      (st, .error ⟨400, "Invalid Old Password"⟩) := by
    simp only [changeCurrentPassword, hu]
    simp [hw]
  exact ⟨hstep, by rw [hstep]; exact hu⟩

/-- C6 witness: a wrong old password against the stored hash of "p1". -/
theorem wrong_old_password_rejected_state_unchanged_witness :
    changeCurrentPassword
        ⟨[⟨1, "alice", "alice@x.com", "Alice", hashPw "p1", "av", "", .unset⟩], [], 0, 2⟩
        1 "wrong" "new" =
      (⟨[⟨1, "alice", "alice@x.com", "Alice", hashPw "p1", "av", "", .unset⟩], [], 0, 2⟩,
        .error ⟨400, "Invalid Old Password"⟩) ∧
    findById (changeCurrentPassword
        ⟨[⟨1, "alice", "alice@x.com", "Alice", hashPw "p1", "av", "", .unset⟩], [], 0, 2⟩
        1 "wrong" "new").1.users 1 =
      some ⟨1, "alice", "alice@x.com", "Alice", hashPw "p1", "av", "", .unset⟩ :=
  wrong_old_password_rejected_state_unchanged
    ⟨[⟨1, "alice", "alice@x.com", "Alice", hashPw "p1", "av", "", .unset⟩], [], 0, 2⟩
    1 "wrong" "new" ⟨1, "alice", "alice@x.com", "Alice", hashPw "p1", "av", "", .unset⟩
    rfl (by decide)

/-- C7 counterexample: a register request whose password field is absent
passes the `field?.trim() === ""` validation (optional chaining yields
`undefined`, which is not `""`) and proceeds to the store lookup, here
answering 409 for a duplicate email instead of the claimed 400. -/
theorem absent_field_passes_register_validation :
    (registerUser ⟨[⟨1, "alice", "alice@x.com", "Alice", hashPw "p1", "av", "", .unset⟩], [], 0, 2⟩
        ⟨some "Bob", some "alice@x.com", some "bob", none, some "a.png", none⟩).2 =
      .error ⟨409, "user is already exist"⟩ ∧ (409 : Nat) ≠ 400 :=
  ⟨rfl, by decide⟩

/-- C7 amended: register fails with the 400 "All field are required"
ValidationError exactly when some required field is present and trims to
the empty string; an absent field passes this validation and the request
proceeds to the store lookup. -/
theorem register_validation_iff_present_field_trims_empty (st : St) (req : RegisterReq) :
    (registerUser st req).2 = .error ⟨400, "All field are required"⟩ ↔
      ∃ f ∈ [req.fullname, req.email, req.username, req.password],
        ∃ s, f = some s ∧ jsTrim s = "" := by
  constructor
  · intro h
    by_cases hv : [req.fullname, req.email, req.username, req.password].any trimEmptyCheck = true
    · rcases List.any_eq_true.mp hv with ⟨f, hf, hc⟩
      cases f with
      | none => simp [trimEmptyCheck] at hc
      | some s =>
          exact ⟨some s, hf, s, rfl, by simpa [trimEmptyCheck] using hc⟩
    · exfalso
      simp only [registerUser, hv] at h
      repeat' split at h
      all_goals simp_all
  · rintro ⟨f, hf, s, rfl, hs⟩
    have hv : [req.fullname, req.email, req.username, req.password].any trimEmptyCheck = true :=
      List.any_eq_true.mpr ⟨some s, hf, by simp [trimEmptyCheck, hs]⟩
    simp [registerUser, hv]

/-- C8 counterexample: querying the channel profile of a username with no
matching channel answers 400 "Channel doesnot exists", not the claimed
404. -/
theorem channel_profile_missing_is_400_not_404 :
    getUserChannalProfile
        ⟨[⟨1, "alice", "alice@x.com", "Alice", hashPw "p1", "av", "", .unset⟩], [], 0, 2⟩
        (some "bob") none =
      .error ⟨400, "Channel doesnot exists"⟩ ∧ (400 : Nat) ≠ 404 :=
  ⟨rfl, by decide⟩

/-- C8 amended: the channel-profile query fails with status 400 (message
"Channel doesnot exists") when no channel matches the given username. -/
theorem channel_profile_no_match_400 (st : St) (uname : String) (viewer : Option Nat)
    (hn : jsTrim uname ≠ "")
    (hm : st.users.filter (fun u => u.username == jsToLower uname) = []) :
    getUserChannalProfile st (some uname) viewer = .error ⟨400, "Channel doesnot exists"⟩ := by
  simp only [getUserChannalProfile, hm]
  simp [hn]

/-- C8 witness: the amended theorem on a store without user "bob". -/
theorem channel_profile_no_match_400_witness :
    getUserChannalProfile
        ⟨[⟨1, "alice", "alice@x.com", "Alice", hashPw "p1", "av", "", .unset⟩], [], 0, 2⟩
        (some "bob") none =
      .error ⟨400, "Channel doesnot exists"⟩ :=
  channel_profile_no_match_400
    ⟨[⟨1, "alice", "alice@x.com", "Alice", hashPw "p1", "av", "", .unset⟩], [], 0, 2⟩
    "bob" none (by decide) (by decide)

/-- C9: `asyncHandler` evaluates to `undefined` for every handler — the
braced arrow body creates the inner wrapping arrow as an expression
statement and never returns it — so every route handler built with it is
`undefined` rather than the wrapping function. -/
theorem asyncHandler_returns_undefined :
    ∀ (Req Res E : Type) (reqHandler : Req → Res → (E → Unit) → Except E Unit),
      asyncHandler reqHandler = none ∧
      asyncHandler reqHandler ≠ some (innerArrow reqHandler) :=
  fun _ _ _ _ => ⟨rfl, fun h => Option.noConfusion h⟩

/-- C10: every successful registration answers HTTP status 201 while the
JSON envelope's statusCode field is 200, so the two always differ. -/
theorem register_status_mismatch (st : St) (req : RegisterReq) (st₁ : St) (n : Nat)
    (env : ApiResponse UserView)
    (h : registerUser st req = (st₁, .ok (n, env))) :
    n = 201 ∧ env.statusCode = 200 ∧ n ≠ env.statusCode := by
  simp only [registerUser] at h
  repeat' split at h
  all_goals simp_all
  all_goals
    obtain ⟨-, hn, henv⟩ := h
    subst hn
    subst henv
    exact ⟨rfl, by simp⟩

/-- C10 witness: a concrete successful registration into the empty
store. -/
theorem register_status_mismatch_witness :
    (201 : Nat) = 201 ∧
    (⟨200, ⟨7, "bob99", "b@x.com", "Bob", "https://cdn.example/a.png", "", none, .unset⟩,
      "User register successfully", true⟩ : ApiResponse UserView).statusCode = 200 ∧
    (201 : Nat) ≠
      (⟨200, ⟨7, "bob99", "b@x.com", "Bob", "https://cdn.example/a.png", "", none, .unset⟩,
        "User register successfully", true⟩ : ApiResponse UserView).statusCode :=
  register_status_mismatch ⟨[], [], 0, 7⟩
    ⟨some "Bob", some "b@x.com", some "Bob99", some "pw", some "a.png", none⟩
    ⟨[⟨7, "bob99", "b@x.com", "Bob", hashPw "pw", "https://cdn.example/a.png", "", .unset⟩], [], 0, 8⟩
    201
    ⟨200, ⟨7, "bob99", "b@x.com", "Bob", "https://cdn.example/a.png", "", none, .unset⟩,
      "User register successfully", true⟩
    rfl

end AkBackend
